import Mathlib

/-!
Verification development for the EAS TOEIC availability monitor
(`src/eas_monitor.user.js`). The userscript is shallowly embedded here:

* `parseAllSessions` mirrors the parsing/classification of page rows into
  session records (lines 56-88 of the source);
* `lastSpotsTest` mirrors the regular expression test
  `/ultim\w*\s+\d+\s+post/i.test(note)` used for `hasLastSpots`;
* `esauritoTest` mirrors the lower-cased indexOf test for the token `esaurito`;
* `renderBanner`, `playBeep`, `flashTab`, `runCheck` and `waitForDOM`
  mirror the banner rendering, alert channels, the main check cycle and the
  bounded bootstrap loop, with the browser world (DOM elements, timers,
  console log, started tones) made explicit in a `MonitorState` record.

Timers (`setTimeout`/`setInterval`) are modelled by an allocator handing out
increasing numeric ids and a list of currently active timers; clearing a
timer removes it from that list.
-/

namespace EasMonitor

/-! ### Character classes of the JavaScript regex (ASCII fragment)

The source tests notes with `/ultim\w*\s+\d+\s+post/i`.  `\w` is
`[A-Za-z0-9_]`, `\d` is `[0-9]`, and `\s` is whitespace (we model the ASCII
whitespace characters plus U+00A0, the ones that can occur in the page
text). -/

def wordChar (c : Char) : Bool :=
  (('a' ≤ c) && (c ≤ 'z')) || (('A' ≤ c) && (c ≤ 'Z')) ||
  (('0' ≤ c) && (c ≤ '9')) || (c == '_')

def digitChar (c : Char) : Bool :=
  ('0' ≤ c) && (c ≤ '9')

def jsSpace (c : Char) : Bool :=
  (c == ' ') || (c == '\t') || (c == '\n') || (c == '\r') ||
  (c == '\x0b') || (c == '\x0c') || (c == '\u00A0')

/-- Case-insensitive literal match at the front of the input: consumes
characters whose `Char.toLower` image spells `lit`, returning the rest. -/
def stripLitCI : List Char → List Char → Option (List Char)
  | [], cs => some cs
  | _ :: _, [] => none
  | l :: ls, c :: cs => if c.toLower == l then stripLitCI ls cs else none

def ultimChars : List Char := ['u', 'l', 't', 'i', 'm']

def postChars : List Char := ['p', 'o', 's', 't']

/-- One-or-more characters of a class (`\s+`, `\d+`), maximal munch:
consume the nonempty maximal run, fail when the run is empty. -/
def reqClass (p : Char → Bool) (cs : List Char) : Option (List Char) :=
  if (cs.takeWhile p).isEmpty then none else some (cs.dropWhile p)

/-- Match `ultim\w*\s+\d+\s+post` (case-insensitively) at the start of the
input.  Maximal munch is used for `\w*`, `\s+` and `\d+`; because each of
these classes is disjoint from what must follow it (`\w` vs `\s`, `\s` vs
`\d`, `\d` vs `\s`, `\s` vs the letter `p`), maximal munch succeeds exactly
when some decomposition matches, i.e. this coincides with the backtracking
`RegExp.test` semantics. -/
def matchAt (cs : List Char) : Bool :=
  match stripLitCI ultimChars cs with
  | none => false
  | some r1 =>
    match reqClass jsSpace (r1.dropWhile wordChar) with
    | none => false
    | some r3 =>
      match reqClass digitChar r3 with
      | none => false
      | some r4 =>
        match reqClass jsSpace r4 with
        | none => false
        | some r5 => (stripLitCI postChars r5).isSome

/-- Search for a match at every start position, as `RegExp.test` does for an
unanchored pattern. -/
def lastSpotsSearch : List Char → Bool
  | [] => matchAt []
  | c :: cs => matchAt (c :: cs) || lastSpotsSearch cs

/-- `/ultim\w*\s+\d+\s+post/i.test(note)` (source line 75). -/
def lastSpotsTest (s : String) : Bool :=
  lastSpotsSearch s.toList

/-- Does the pattern occur at the very start of the text? -/
def subAt : List Char → List Char → Bool
  | [], _ => true
  | _ :: _, [] => false
  | p :: ps, c :: cs => (c == p) && subAt ps cs

/-- Does the pattern occur at some position of the text
(`String.prototype.indexOf` returning ≠ -1)? -/
def subSearch (pat : List Char) : List Char → Bool
  | [] => subAt pat []
  | c :: cs => subAt pat (c :: cs) || subSearch pat cs

/-- The sold-out test of source line 73: the lower-cased note contains the
substring `esaurito`. -/
def esauritoTest (s : String) : Bool :=
  subSearch ("esaurito".toList) (s.toList.map Char.toLower)

/-- `String.prototype.trim()`: strip whitespace from both ends. -/
def trimChars (cs : List Char) : List Char :=
  ((cs.dropWhile jsSpace).reverse.dropWhile jsSpace).reverse

def jsTrim (s : String) : String :=
  String.mk (trimChars s.toList)

/-! ### Session records (source lines 56-88) -/

/-- One `div.riga_tabella` row of the snapshot: the three optional
sub-fields the parser queries.  `buyDiv` is the `div.tabellaacquista` cell
(absent ⇒ outer `none`); its payload is the `href` of the `<a>` anchor
inside it, when one exists. -/
structure RowInput where
  descDiv : Option String
  noteDiv : Option String
  buyDiv : Option (Option String)
deriving DecidableEq

structure Session where
  description : String
  note : String
  hasBuyLink : Bool
  buyUrl : Option String
  isSoldOut : Bool
  isAvailable : Bool
  hasLastSpots : Bool
deriving DecidableEq

/-- Body of the parsing loop (source lines 62-85). -/
def parseRow (row : RowInput) : Session :=
  let description := match row.descDiv with
    | some t => jsTrim t
    | none => "N/A"
  let note := match row.noteDiv with
    | some t => jsTrim t
    | none => ""
  let buyLink : Option String := match row.buyDiv with
    | some q => q
    | none => none
  let hasBuyLink := buyLink.isSome
  let buyUrl := buyLink
  let isSoldOut := esauritoTest note
  let isAvailable := !isSoldOut || hasBuyLink
  let hasLastSpots := lastSpotsTest note
  { description := description
    note := note
    hasBuyLink := hasBuyLink
    buyUrl := buyUrl
    isSoldOut := isSoldOut
    isAvailable := isAvailable
    hasLastSpots := hasLastSpots }

/-- `parseAllSessions` (source lines 56-88): one record per row, in
document order. -/
def parseAllSessions (rows : List RowInput) : List Session :=
  rows.map parseRow

/-! ### Configuration (source lines 24-30 and 277-278, 289) -/

structure Config where
  refreshIntervalSec : Nat
  enableSound : Bool
  enableTabFlash : Bool
  soundFrequency : Nat
  soundDurationMs : Nat
  soundRepeat : Nat
  maxAttempts : Nat
  retryDelayMs : Nat
deriving DecidableEq

/-- The constants of the source: `REFRESH_INTERVAL_SEC = 5`,
`ENABLE_SOUND = true`, `ENABLE_TAB_FLASH = true`, `SOUND_FREQUENCY = 800`,
`SOUND_DURATION_MS = 200`, `SOUND_REPEAT = 5`, `maxAttempts = 20`, and the
500 ms bootstrap retry delay. -/
def defaultConfig : Config :=
  { refreshIntervalSec := 5
    enableSound := true
    enableTabFlash := true
    soundFrequency := 800
    soundDurationMs := 200
    soundRepeat := 5
    maxAttempts := 20
    retryDelayMs := 500 }

/-- Host environment facts outside the control of the script: whether
constructing/playing the Web Audio tones throws (e.g. autoplay blocked). -/
structure Env where
  audioFails : Bool
deriving DecidableEq

/-! ### Timers, DOM and console log -/

inductive TimerKind
  | refresh
  | countdown
  | elapsed
  | tabFlash
deriving DecidableEq

structure Timer where
  id : Nat
  kind : TimerKind
  delayMs : Nat
deriving DecidableEq

inductive BannerClass
  | soldOutCls
  | availableCls
deriving DecidableEq

/-- One line of the `#eas-details` block (source lines 182-188):
description, the note when `hasLastSpots`, the purchase link when
present. -/
structure DetailLine where
  description : String
  noteShown : Option String
  buyUrl : Option String
deriving DecidableEq

/-- Elements the script can place in the page, plus uninterpreted pre-existing
page content. -/
inductive Elem
  | banner (total soldOut availCount : Nat) (cls : BannerClass)
  | details (lines : List DetailLine)
  | other (tag : String)
deriving DecidableEq

def isBannerElem : Elem → Bool
  | Elem.banner .. => true
  | _ => false

def isDetailsElem : Elem → Bool
  | Elem.details _ => true
  | _ => false

inductive LogEntry
  | startScan
  | totals (total soldOut avail : Nat)
  | sessionDebug (description note : String) (sold : Bool)
  | bannerRendered (allSoldOut : Bool)
  | availAlert
  | allSoldOutNext
  | audioWarn
  | cycleError
  | attempt (n found : Nat)
  | domReady
  | noRows
deriving DecidableEq

/-- The mutable world of the script: the four timer-handle variables (source
lines 33-36), the set of currently scheduled timers with an id allocator,
the page, the console log (most recent entry first) and the tones started
so far (their frequencies, in order). -/
structure MonitorState where
  refreshTimerId : Option Nat
  countdownId : Option Nat
  elapsedId : Option Nat
  tabFlashId : Option Nat
  activeTimers : List Timer
  nextId : Nat
  dom : List Elem
  log : List LogEntry
  tones : List Nat
deriving DecidableEq

def initState : MonitorState :=
  { refreshTimerId := none
    countdownId := none
    elapsedId := none
    tabFlashId := none
    activeTimers := []
    nextId := 0
    dom := []
    log := []
    tones := [] }

/-- `setTimeout`/`setInterval`: allocate a fresh id and schedule. -/
def setTimer (k : TimerKind) (delayMs : Nat) (st : MonitorState) :
    Nat × MonitorState :=
  (st.nextId,
   { st with
      activeTimers := st.activeTimers ++ [⟨st.nextId, k, delayMs⟩]
      nextId := st.nextId + 1 })

/-- `clearTimeout`/`clearInterval`: the timer with that id stops firing. -/
def clearTimer (i : Nat) (st : MonitorState) : MonitorState :=
  { st with activeTimers := st.activeTimers.filter fun t => !(t.id == i) }

/-- `if (handle) clearInterval(handle)` on an optional timer handle. -/
def clearTimerOpt (h : Option Nat) (st : MonitorState) : MonitorState :=
  match h with
  | some i => clearTimer i st
  | none => st

/-- Details inserted right after the banner (insertAdjacentElement) on the
banner. -/
def insertAfterBanner (d : Elem) : List Elem → List Elem
  | [] => []
  | e :: rest =>
    if isBannerElem e then e :: d :: rest else e :: insertAfterBanner d rest

/-! ### renderBanner (source lines 113-195) -/

def renderBanner (cfg : Config) (total soldOut availCount : Nat)
    (availSessions : List Session) (st : MonitorState) : MonitorState :=
  -- remove any previous #eas-banner / #eas-details instance (element ids
  -- are unique in a document, so this clears every prior instance)
  let dom0 := (st.dom.filter fun e => !(isBannerElem e)).filter
    fun e => !(isDetailsElem e)
  let allSoldOut : Bool := availCount == 0
  let cls := if allSoldOut then BannerClass.soldOutCls
    else BannerClass.availableCls
  -- document.body.insertBefore(banner, document.body.firstChild)
  let st1 := { st with dom := Elem.banner total soldOut availCount cls :: dom0 }
  -- elapsed ticker: clear the previous one, start a fresh 1 s interval
  let st2 := clearTimerOpt st1.elapsedId st1
  let es := setTimer TimerKind.elapsed 1000 st2
  let st3 := { es.2 with elapsedId := some es.1 }
  -- countdown: clear the previous one; restart it only while all sold out
  let st4 := clearTimerOpt st3.countdownId st3
  let st5 :=
    if allSoldOut then
      let cs := setTimer TimerKind.countdown 1000 st4
      { cs.2 with countdownId := some cs.1 }
    else st4
  -- details block (only when some session is available)
  let st6 :=
    if !allSoldOut && !availSessions.isEmpty then
      let lines := availSessions.map fun s =>
        DetailLine.mk s.description
          (if s.hasLastSpots then some s.note else none) s.buyUrl
      { st5 with dom := insertAfterBanner (Elem.details lines) st5.dom }
    else st5
  { st6 with log := LogEntry.bannerRendered allSoldOut :: st6.log }

/-! ### Alert channels (source lines 199-228) -/

/-- The `SOUND_REPEAT` oscillator frequencies `SOUND_FREQUENCY + i*100`. -/
def beepTones (cfg : Config) : List Nat :=
  (List.range cfg.soundRepeat).map fun i => cfg.soundFrequency + i * 100

/-- `playBeep`: everything inside its own try/catch; a failure is logged
with `console.warn` and nothing else happens. -/
def playBeep (cfg : Config) (env : Env) (st : MonitorState) : MonitorState :=
  if !cfg.enableSound then st
  else if env.audioFails then { st with log := LogEntry.audioWarn :: st.log }
  else { st with tones := st.tones ++ beepTones cfg }

/-- `flashTab`: clear a previous flasher, start an 800 ms title toggle. -/
def flashTab (cfg : Config) (st : MonitorState) : MonitorState :=
  if !cfg.enableTabFlash then st
  else
    let st1 := clearTimerOpt st.tabFlashId st
    let fs := setTimer TimerKind.tabFlash 800 st1
    { fs.2 with tabFlashId := some fs.1 }

/-! ### runCheck (source lines 232-271)

The whole body is wrapped in try/catch.  The `input` is the outcome of
reading the page: `.ok rows` is the normal case, `.error` models an
unexpected exception thrown inside the try block at the parse step. -/

/-- `if (refreshTimerId) { clearTimeout(refreshTimerId); refreshTimerId =
null; }` (source line 259). -/
def stopRefresh (st : MonitorState) : MonitorState :=
  match st.refreshTimerId with
  | some i => { clearTimer i st with refreshTimerId := none }
  | none => st

def runCheck (cfg : Config) (env : Env) (input : Except Unit (List RowInput))
    (st : MonitorState) : MonitorState :=
  match input with
  | Except.error _ =>
    -- the catch at the cycle boundary only logs the error
    { st with log := LogEntry.cycleError :: LogEntry.startScan :: st.log }
  | Except.ok rows =>
    let st1 := { st with log := LogEntry.startScan :: st.log }
    let sessions := parseAllSessions rows
    let available := sessions.filter fun s => s.isAvailable
    let soldOut := sessions.length - available.length
    let st2 := { st1 with
      log := LogEntry.totals sessions.length soldOut available.length :: st1.log }
    -- debug print of the first three sessions
    let st3 := { st2 with
      log := ((sessions.take 3).map fun s =>
        LogEntry.sessionDebug s.description s.note s.isSoldOut).reverse ++ st2.log }
    let st4 := renderBanner cfg sessions.length soldOut available.length
      available st3
    if !available.isEmpty then
      -- available.length > 0: stop auto-refresh, fire the alert channels
      let st5 := { st4 with log := LogEntry.availAlert :: st4.log }
      let st6 := stopRefresh st5
      let st7 := playBeep cfg env st6
      flashTab cfg st7
    else
      let st5 := { st4 with log := LogEntry.allSoldOutNext :: st4.log }
      let ts := setTimer TimerKind.refresh (cfg.refreshIntervalSec * 1000) st5
      { ts.2 with refreshTimerId := some ts.1 }

/-! ### waitForDOM (source lines 275-298)

`snaps n` is the list of rows the page exposes at the n-th attempt
(attempts are counted from 1, as in the source).  The 500 ms retry
`setTimeout(check, 500)` is consumed synchronously here: the recursive call
is the callback of that timer firing. -/

def waitLoop (cfg : Config) (env : Env) (snaps : Nat → List RowInput) :
    Nat → Nat → MonitorState → MonitorState
  | _, 0, st => st
  | attempts, fuel + 1, st =>
    let attempts1 := attempts + 1
    let rows := snaps attempts1
    let st1 := { st with
      log := LogEntry.attempt attempts1 rows.length :: st.log }
    if !rows.isEmpty then
      runCheck cfg env (Except.ok rows)
        { st1 with log := LogEntry.domReady :: st1.log }
    else if attempts1 < cfg.maxAttempts then
      waitLoop cfg env snaps attempts1 fuel st1
    else
      renderBanner cfg 0 0 0 []
        { st1 with log := LogEntry.noRows :: st1.log }

def waitForDOM (cfg : Config) (env : Env) (snaps : Nat → List RowInput)
    (st : MonitorState) : MonitorState :=
  waitLoop cfg env snaps 0 cfg.maxAttempts st

/-! ### Observables used in the statements -/

def refreshKind : Timer → Bool
  | ⟨_, TimerKind.refresh, _⟩ => true
  | _ => false

/-- The re-check (`setTimeout(reload)`) timers currently scheduled. -/
def refreshTimers (st : MonitorState) : List Timer :=
  st.activeTimers.filter refreshKind

def bannerCount (dom : List Elem) : Nat :=
  (dom.filter isBannerElem).length

def detailsCount (dom : List Elem) : Nat :=
  (dom.filter isDetailsElem).length

/-- The data shown by the first (unique) banner in the page. -/
def bannerInfo : List Elem → Option (Nat × Nat × Nat × BannerClass)
  | [] => none
  | Elem.banner t so av cls :: _ => some (t, so, av, cls)
  | _ :: es => bannerInfo es

def isAttemptLog : LogEntry → Bool
  | LogEntry.attempt .. => true
  | _ => false

def attemptCount (lg : List LogEntry) : Nat :=
  (lg.filter isAttemptLog).length

/-- A timer-handle variable only holds ids the allocator has issued. -/
def HandleLt (h : Option Nat) (n : Nat) : Prop :=
  ∀ i, h = some i → i < n

/-- State well-formedness: all stored ids are below the next
fresh id.  Holds initially and is preserved by every operation. -/
def WF (st : MonitorState) : Prop :=
  HandleLt st.refreshTimerId st.nextId ∧
  HandleLt st.countdownId st.nextId ∧
  HandleLt st.elapsedId st.nextId ∧
  HandleLt st.tabFlashId st.nextId ∧
  ∀ t ∈ st.activeTimers, t.id < st.nextId

/-- A waiting-phase state with one pending re-check timer (id 0), used as a
concrete instance below. -/
def pendingState : MonitorState :=
  { initState with
      refreshTimerId := some 0
      activeTimers := [⟨0, TimerKind.refresh, 5000⟩]
      nextId := 1 }

/-- `u` spells the (lower-case) literal `lit` up to letter case. -/
def LowersTo (lit u : List Char) : Prop :=
  u.map Char.toLower = lit

/-- The declarative reading of the last-N-spots pattern of the spec: somewhere in
the note (arbitrary surrounding text `su`/`sf`), the word stem `ultim` (in
any letter case) followed by word characters, then whitespace, one-or-more
digits, whitespace, and the literal `post` (in any letter case). -/
def LastSpotsSpec (s : List Char) : Prop :=
  ∃ su u w s1 d s2 p sf : List Char,
    s = su ++ (u ++ (w ++ (s1 ++ (d ++ (s2 ++ (p ++ sf)))))) ∧
    LowersTo ultimChars u ∧
    (∀ c ∈ w, wordChar c = true) ∧
    s1 ≠ [] ∧ (∀ c ∈ s1, jsSpace c = true) ∧
    d ≠ [] ∧ (∀ c ∈ d, digitChar c = true) ∧
    s2 ≠ [] ∧ (∀ c ∈ s2, jsSpace c = true) ∧
    LowersTo postChars p

/-! ## Basic lemmas about the session records -/

lemma parseRow_isAvailable (row : RowInput) :
    (parseRow row).isAvailable =
      (!(parseRow row).isSoldOut || (parseRow row).hasBuyLink) := rfl

lemma parseRow_isSoldOut (row : RowInput) :
    (parseRow row).isSoldOut = esauritoTest (parseRow row).note := rfl

lemma mem_parse_isAvailable {rows : List RowInput} {s : Session}
    (hs : s ∈ parseAllSessions rows) :
    s.isAvailable = (!s.isSoldOut || s.hasBuyLink) := by
  obtain ⟨row, -, rfl⟩ := List.mem_map.mp hs
  exact parseRow_isAvailable row

/-! ## Projection lemmas for the state operations -/

@[simp] lemma clearTimer_refresh (i : Nat) (st : MonitorState) :
    (clearTimer i st).refreshTimerId = st.refreshTimerId := rfl

@[simp] lemma clearTimer_countdown (i : Nat) (st : MonitorState) :
    (clearTimer i st).countdownId = st.countdownId := rfl

@[simp] lemma clearTimer_elapsed (i : Nat) (st : MonitorState) :
    (clearTimer i st).elapsedId = st.elapsedId := rfl

@[simp] lemma clearTimer_tabFlash (i : Nat) (st : MonitorState) :
    (clearTimer i st).tabFlashId = st.tabFlashId := rfl

@[simp] lemma clearTimer_nextId (i : Nat) (st : MonitorState) :
    (clearTimer i st).nextId = st.nextId := rfl

@[simp] lemma clearTimer_dom (i : Nat) (st : MonitorState) :
    (clearTimer i st).dom = st.dom := rfl

@[simp] lemma clearTimer_log (i : Nat) (st : MonitorState) :
    (clearTimer i st).log = st.log := rfl

@[simp] lemma clearTimer_tones (i : Nat) (st : MonitorState) :
    (clearTimer i st).tones = st.tones := rfl

@[simp] lemma clearTimerOpt_refresh (h : Option Nat) (st : MonitorState) :
    (clearTimerOpt h st).refreshTimerId = st.refreshTimerId := by
  cases h <;> rfl

@[simp] lemma clearTimerOpt_countdown (h : Option Nat) (st : MonitorState) :
    (clearTimerOpt h st).countdownId = st.countdownId := by
  cases h <;> rfl

@[simp] lemma clearTimerOpt_elapsed (h : Option Nat) (st : MonitorState) :
    (clearTimerOpt h st).elapsedId = st.elapsedId := by
  cases h <;> rfl

@[simp] lemma clearTimerOpt_tabFlash (h : Option Nat) (st : MonitorState) :
    (clearTimerOpt h st).tabFlashId = st.tabFlashId := by
  cases h <;> rfl

@[simp] lemma clearTimerOpt_nextId (h : Option Nat) (st : MonitorState) :
    (clearTimerOpt h st).nextId = st.nextId := by
  cases h <;> rfl

@[simp] lemma clearTimerOpt_dom (h : Option Nat) (st : MonitorState) :
    (clearTimerOpt h st).dom = st.dom := by
  cases h <;> rfl

@[simp] lemma clearTimerOpt_log (h : Option Nat) (st : MonitorState) :
    (clearTimerOpt h st).log = st.log := by
  cases h <;> rfl

@[simp] lemma clearTimerOpt_tones (h : Option Nat) (st : MonitorState) :
    (clearTimerOpt h st).tones = st.tones := by
  cases h <;> rfl

lemma mem_clearTimer {t : Timer} {i : Nat} {st : MonitorState} :
    t ∈ (clearTimer i st).activeTimers ↔ t ∈ st.activeTimers ∧ t.id ≠ i := by
  simp [clearTimer, List.mem_filter]

lemma mem_clearTimerOpt {t : Timer} {h : Option Nat} {st : MonitorState} :
    t ∈ (clearTimerOpt h st).activeTimers ↔
      t ∈ st.activeTimers ∧ h ≠ some t.id := by
  cases h with
  | none => simp [clearTimerOpt]
  | some i =>
    simp only [clearTimerOpt, mem_clearTimer]
    constructor
    · rintro ⟨ht, hne⟩
      exact ⟨ht, by simpa [eq_comm] using hne⟩
    · rintro ⟨ht, hne⟩
      exact ⟨ht, by simpa [eq_comm] using hne⟩

@[simp] lemma playBeep_refresh (cfg : Config) (env : Env) (st : MonitorState) :
    (playBeep cfg env st).refreshTimerId = st.refreshTimerId := by
  unfold playBeep; split
  · rfl
  · split <;> rfl

@[simp] lemma playBeep_countdownId (cfg : Config) (env : Env) (st : MonitorState) :
    (playBeep cfg env st).countdownId = st.countdownId := by
  unfold playBeep; split
  · rfl
  · split <;> rfl

@[simp] lemma playBeep_elapsedId (cfg : Config) (env : Env) (st : MonitorState) :
    (playBeep cfg env st).elapsedId = st.elapsedId := by
  unfold playBeep; split
  · rfl
  · split <;> rfl

@[simp] lemma playBeep_tabFlashId (cfg : Config) (env : Env) (st : MonitorState) :
    (playBeep cfg env st).tabFlashId = st.tabFlashId := by
  unfold playBeep; split
  · rfl
  · split <;> rfl

@[simp] lemma playBeep_activeTimers (cfg : Config) (env : Env) (st : MonitorState) :
    (playBeep cfg env st).activeTimers = st.activeTimers := by
  unfold playBeep; split
  · rfl
  · split <;> rfl

@[simp] lemma playBeep_nextId (cfg : Config) (env : Env) (st : MonitorState) :
    (playBeep cfg env st).nextId = st.nextId := by
  unfold playBeep; split
  · rfl
  · split <;> rfl

@[simp] lemma playBeep_dom (cfg : Config) (env : Env) (st : MonitorState) :
    (playBeep cfg env st).dom = st.dom := by
  unfold playBeep; split
  · rfl
  · split <;> rfl

@[simp] lemma flashTab_dom (cfg : Config) (st : MonitorState) :
    (flashTab cfg st).dom = st.dom := by
  unfold flashTab; split
  · rfl
  · simp [setTimer]

@[simp] lemma flashTab_refresh (cfg : Config) (st : MonitorState) :
    (flashTab cfg st).refreshTimerId = st.refreshTimerId := by
  unfold flashTab; split
  · rfl
  · simp [setTimer]

@[simp] lemma flashTab_tones (cfg : Config) (st : MonitorState) :
    (flashTab cfg st).tones = st.tones := by
  unfold flashTab; split
  · rfl
  · simp [setTimer]

@[simp] lemma flashTab_log (cfg : Config) (st : MonitorState) :
    (flashTab cfg st).log = st.log := by
  unfold flashTab; split
  · rfl
  · simp [setTimer]

@[simp] lemma flashTab_nextId (cfg : Config) (st : MonitorState) :
    (flashTab cfg st).nextId =
      if cfg.enableTabFlash then st.nextId + 1 else st.nextId := by
  unfold flashTab
  by_cases h : cfg.enableTabFlash <;> simp [h, setTimer]

lemma flashTab_tabFlashId (cfg : Config) (st : MonitorState) :
    (flashTab cfg st).tabFlashId =
      if cfg.enableTabFlash then some st.nextId else st.tabFlashId := by
  unfold flashTab
  by_cases h : cfg.enableTabFlash <;> simp [h, setTimer]

lemma mem_flashTab {cfg : Config} {st : MonitorState} {tm : Timer} :
    tm ∈ (flashTab cfg st).activeTimers ↔
      (cfg.enableTabFlash = false ∧ tm ∈ st.activeTimers) ∨
      (cfg.enableTabFlash = true ∧
        ((tm ∈ st.activeTimers ∧ st.tabFlashId ≠ some tm.id) ∨
          tm = ⟨st.nextId, TimerKind.tabFlash, 800⟩)) := by
  unfold flashTab
  by_cases h : cfg.enableTabFlash <;>
    simp [h, setTimer, mem_clearTimerOpt]

@[simp] lemma stopRefresh_refreshTimerId (st : MonitorState) :
    (stopRefresh st).refreshTimerId = none := by
  unfold stopRefresh
  cases h : st.refreshTimerId <;> simp [h]

@[simp] lemma stopRefresh_countdownId (st : MonitorState) :
    (stopRefresh st).countdownId = st.countdownId := by
  unfold stopRefresh
  cases h : st.refreshTimerId <;> simp

@[simp] lemma stopRefresh_elapsedId (st : MonitorState) :
    (stopRefresh st).elapsedId = st.elapsedId := by
  unfold stopRefresh
  cases h : st.refreshTimerId <;> simp

@[simp] lemma stopRefresh_tabFlashId (st : MonitorState) :
    (stopRefresh st).tabFlashId = st.tabFlashId := by
  unfold stopRefresh
  cases h : st.refreshTimerId <;> simp

@[simp] lemma stopRefresh_nextId (st : MonitorState) :
    (stopRefresh st).nextId = st.nextId := by
  unfold stopRefresh
  cases h : st.refreshTimerId <;> simp

@[simp] lemma stopRefresh_dom (st : MonitorState) :
    (stopRefresh st).dom = st.dom := by
  unfold stopRefresh
  cases h : st.refreshTimerId <;> simp

@[simp] lemma stopRefresh_log (st : MonitorState) :
    (stopRefresh st).log = st.log := by
  unfold stopRefresh
  cases h : st.refreshTimerId <;> simp

@[simp] lemma stopRefresh_tones (st : MonitorState) :
    (stopRefresh st).tones = st.tones := by
  unfold stopRefresh
  cases h : st.refreshTimerId <;> simp

lemma mem_stopRefresh {st : MonitorState} {tm : Timer} :
    tm ∈ (stopRefresh st).activeTimers ↔
      tm ∈ st.activeTimers ∧ st.refreshTimerId ≠ some tm.id := by
  unfold stopRefresh
  cases h : st.refreshTimerId with
  | none => simp [h]
  | some i =>
    simp only [h, mem_clearTimer]
    constructor
    · rintro ⟨ht, hne⟩
      exact ⟨ht, by simpa [eq_comm] using hne⟩
    · rintro ⟨ht, hne⟩
      exact ⟨ht, by simpa [eq_comm] using hne⟩

lemma playBeep_tones (cfg : Config) (env : Env) (st : MonitorState) :
    (playBeep cfg env st).tones =
      if cfg.enableSound && !env.audioFails then st.tones ++ beepTones cfg
      else st.tones := by
  unfold playBeep
  by_cases h1 : cfg.enableSound <;> by_cases h2 : env.audioFails <;>
    simp [h1, h2]

lemma playBeep_log_warn (cfg : Config) (env : Env) (st : MonitorState)
    (h1 : cfg.enableSound = true) (h2 : env.audioFails = true) :
    LogEntry.audioWarn ∈ (playBeep cfg env st).log := by
  unfold playBeep
  simp [h1, h2]

@[simp] lemma beepTones_length (cfg : Config) :
    (beepTones cfg).length = cfg.soundRepeat := by
  simp [beepTones]

/-! ## Projections of `renderBanner` -/

@[simp] lemma renderBanner_refreshTimerId (cfg : Config)
    (t so av : Nat) (ls : List Session) (st : MonitorState) :
    (renderBanner cfg t so av ls st).refreshTimerId = st.refreshTimerId := by
  unfold renderBanner
  by_cases hav : (av == 0) = true <;> by_cases hls : ls.isEmpty = true <;>
    simp [hav, hls, setTimer]

@[simp] lemma renderBanner_tabFlashId (cfg : Config)
    (t so av : Nat) (ls : List Session) (st : MonitorState) :
    (renderBanner cfg t so av ls st).tabFlashId = st.tabFlashId := by
  unfold renderBanner
  by_cases hav : (av == 0) = true <;> by_cases hls : ls.isEmpty = true <;>
    simp [hav, hls, setTimer]

@[simp] lemma renderBanner_tones (cfg : Config)
    (t so av : Nat) (ls : List Session) (st : MonitorState) :
    (renderBanner cfg t so av ls st).tones = st.tones := by
  unfold renderBanner
  by_cases hav : (av == 0) = true <;> by_cases hls : ls.isEmpty = true <;>
    simp [hav, hls, setTimer]

lemma renderBanner_nextId (cfg : Config)
    (t so av : Nat) (ls : List Session) (st : MonitorState) :
    (renderBanner cfg t so av ls st).nextId =
      if (av == 0) = true then st.nextId + 2 else st.nextId + 1 := by
  unfold renderBanner
  by_cases hav : (av == 0) = true <;> by_cases hls : ls.isEmpty = true <;>
    simp [hav, hls, setTimer]

lemma mem_renderBanner_timers (cfg : Config) (t so av : Nat)
    (ls : List Session) (st : MonitorState) (tm : Timer) :
    tm ∈ (renderBanner cfg t so av ls st).activeTimers ↔
      ((tm ∈ st.activeTimers ∧ st.elapsedId ≠ some tm.id ∧
          st.countdownId ≠ some tm.id) ∨
        (tm = ⟨st.nextId, TimerKind.elapsed, 1000⟩ ∧
          st.countdownId ≠ some tm.id) ∨
        ((av == 0) = true ∧ tm = ⟨st.nextId + 1, TimerKind.countdown, 1000⟩)) := by
  unfold renderBanner
  by_cases hav : (av == 0) = true <;> by_cases hls : ls.isEmpty = true <;>
    simp [hav, hls, setTimer, mem_clearTimerOpt, List.mem_append] <;>
    tauto

/-! ## The banner always shows total / sold-out / available of the cycle -/

lemma dom0_no_banner (st : MonitorState) :
    ((st.dom.filter fun e => !(isBannerElem e)).filter
      fun e => !(isDetailsElem e)).filter isBannerElem = [] := by
  rw [List.filter_eq_nil_iff]
  intro e he
  have h1 := (List.mem_filter.mp he).1
  have h2 := (List.mem_filter.mp h1).2
  simp at h2
  simp [h2]

lemma dom0_no_details (st : MonitorState) :
    ((st.dom.filter fun e => !(isBannerElem e)).filter
      fun e => !(isDetailsElem e)).filter isDetailsElem = [] := by
  rw [List.filter_eq_nil_iff]
  intro e he
  have h2 := (List.mem_filter.mp he).2
  simp at h2
  simp [h2]

lemma renderBanner_dom (cfg : Config) (total soldOut availCount : Nat)
    (ls : List Session) (st : MonitorState) :
    (renderBanner cfg total soldOut availCount ls st).dom =
      if (availCount == 0) = false ∧ ls.isEmpty = false then
        Elem.banner total soldOut availCount
            (if availCount == 0 then BannerClass.soldOutCls
              else BannerClass.availableCls) ::
          Elem.details (ls.map fun s =>
            DetailLine.mk s.description
              (if s.hasLastSpots then some s.note else none) s.buyUrl) ::
          (st.dom.filter fun e => !(isBannerElem e)).filter
            (fun e => !(isDetailsElem e))
      else
        Elem.banner total soldOut availCount
            (if availCount == 0 then BannerClass.soldOutCls
              else BannerClass.availableCls) ::
          (st.dom.filter fun e => !(isBannerElem e)).filter
            (fun e => !(isDetailsElem e)) := by
  unfold renderBanner
  by_cases hav : (availCount == 0) = true
  · simp [hav, setTimer, insertAfterBanner, isBannerElem]
  · simp only [Bool.not_eq_true] at hav
    by_cases hls : ls.isEmpty = true
    · simp [hav, hls, setTimer, insertAfterBanner, isBannerElem]
    · simp only [Bool.not_eq_true] at hls
      simp [hav, hls, setTimer, insertAfterBanner, isBannerElem]

lemma bannerInfo_renderBanner (cfg : Config) (total soldOut availCount : Nat)
    (ls : List Session) (st : MonitorState) :
    bannerInfo (renderBanner cfg total soldOut availCount ls st).dom =
      some (total, soldOut, availCount,
        if availCount == 0 then BannerClass.soldOutCls
          else BannerClass.availableCls) := by
  rw [renderBanner_dom]
  split <;> rfl

/-! ## Counting helpers -/

lemma length_filter_not_add (p : α → Bool) (l : List α) :
    (l.filter p).length + (l.filter fun a => !(p a)).length = l.length := by
  induction l with
  | nil => rfl
  | cons a l ih =>
    by_cases h : p a = true
    · simp [List.filter_cons, h, ← ih]
      omega
    · simp only [Bool.not_eq_true] at h
      simp [List.filter_cons, h, ← ih]
      omega

lemma parse_filter_not_avail (rows : List RowInput) :
    ((parseAllSessions rows).filter fun s => !(s.isAvailable)) =
      (parseAllSessions rows).filter fun s => s.isSoldOut && !s.hasBuyLink := by
  apply List.filter_congr
  intro s hs
  rw [mem_parse_isAvailable hs]
  cases hso : s.isSoldOut <;> cases hbl : s.hasBuyLink <;> rfl

lemma soldOut_count_eq (rows : List RowInput) :
    (parseAllSessions rows).length -
        ((parseAllSessions rows).filter fun s => s.isAvailable).length =
      ((parseAllSessions rows).filter
        fun s => s.isSoldOut && !s.hasBuyLink).length := by
  have h := length_filter_not_add (fun s => s.isAvailable) (parseAllSessions rows)
  rw [← parse_filter_not_avail]
  omega

/-! ## Claim theorems -/

/-- C1: for every session record produced by a cycle, `isAvailable` equals
`!isSoldOut || hasBuyLink`; hence a record with a purchase link is available
even when its note contains the sold-out marker, and a record whose note
contains the marker with no purchase link is unavailable.  (`isSoldOut`
itself is exactly "the note contains the sold-out marker".) -/
theorem c1_availability_invariant (rows : List RowInput) (s : Session)
    (hs : s ∈ parseAllSessions rows) :
    s.isAvailable = (!s.isSoldOut || s.hasBuyLink) ∧
    (s.hasBuyLink = true → s.isAvailable = true) ∧
    (s.isSoldOut = true → s.hasBuyLink = false → s.isAvailable = false) ∧
    s.isSoldOut = esauritoTest s.note := by
  obtain ⟨row, -, rfl⟩ := List.mem_map.mp hs
  refine ⟨parseRow_isAvailable row, ?_, ?_, parseRow_isSoldOut row⟩
  · intro h
    rw [parseRow_isAvailable, h]
    simp
  · intro h1 h2
    rw [parseRow_isAvailable, h1, h2]
    rfl

/-- Witness for C1: a row whose note claims "Esaurito" but which carries a
purchase link; the invariant instance at this concrete record. -/
theorem c1_availability_invariant_witness :
    (parseRow ⟨some "15/01/2026", some " Esaurito ", some (some "https://x")⟩)
        ∈ parseAllSessions
          [⟨some "15/01/2026", some " Esaurito ", some (some "https://x")⟩] ∧
      ((parseRow ⟨some "15/01/2026", some " Esaurito ", some (some "https://x")⟩).isAvailable =
        (!(parseRow ⟨some "15/01/2026", some " Esaurito ", some (some "https://x")⟩).isSoldOut ||
          (parseRow ⟨some "15/01/2026", some " Esaurito ", some (some "https://x")⟩).hasBuyLink) ∧
      ((parseRow ⟨some "15/01/2026", some " Esaurito ", some (some "https://x")⟩).hasBuyLink = true →
        (parseRow ⟨some "15/01/2026", some " Esaurito ", some (some "https://x")⟩).isAvailable = true) ∧
      ((parseRow ⟨some "15/01/2026", some " Esaurito ", some (some "https://x")⟩).isSoldOut = true →
        (parseRow ⟨some "15/01/2026", some " Esaurito ", some (some "https://x")⟩).hasBuyLink = false →
        (parseRow ⟨some "15/01/2026", some " Esaurito ", some (some "https://x")⟩).isAvailable = false) ∧
      (parseRow ⟨some "15/01/2026", some " Esaurito ", some (some "https://x")⟩).isSoldOut =
        esauritoTest (parseRow ⟨some "15/01/2026", some " Esaurito ", some (some "https://x")⟩).note) :=
  ⟨by decide,
   c1_availability_invariant
     [⟨some "15/01/2026", some " Esaurito ", some (some "https://x")⟩]
     (parseRow ⟨some "15/01/2026", some " Esaurito ", some (some "https://x")⟩)
     (by decide)⟩

/-- A single render always leaves exactly one banner element. -/
lemma bannerCount_render (cfg : Config) (t so av : Nat) (ls : List Session)
    (st : MonitorState) :
    bannerCount (renderBanner cfg t so av ls st).dom = 1 := by
  unfold bannerCount
  rw [renderBanner_dom]
  split
  · rw [List.filter_cons, List.filter_cons, dom0_no_banner st]
    simp [isBannerElem]
  · rw [List.filter_cons, dom0_no_banner st]
    simp [isBannerElem]

/-- A single render always leaves at most one details element. -/
lemma detailsCount_render (cfg : Config) (t so av : Nat) (ls : List Session)
    (st : MonitorState) :
    detailsCount (renderBanner cfg t so av ls st).dom ≤ 1 := by
  unfold detailsCount
  rw [renderBanner_dom]
  split
  · rw [List.filter_cons, List.filter_cons, dom0_no_details st]
    simp [isBannerElem, isDetailsElem]
  · rw [List.filter_cons, dom0_no_details st]
    simp [isBannerElem, isDetailsElem]

/-- `runCheck` on a successful read always renders a banner carrying the
total / (total − available) / available counts of the cycle. -/
lemma runCheck_bannerInfo (cfg : Config) (env : Env) (rows : List RowInput)
    (st : MonitorState) :
    bannerInfo ((runCheck cfg env (Except.ok rows) st).dom) =
      some ((parseAllSessions rows).length,
        (parseAllSessions rows).length -
          ((parseAllSessions rows).filter fun s => s.isAvailable).length,
        ((parseAllSessions rows).filter fun s => s.isAvailable).length,
        if ((parseAllSessions rows).filter fun s => s.isAvailable).length == 0
          then BannerClass.soldOutCls else BannerClass.availableCls) := by
  simp only [runCheck]
  split
  · rw [flashTab_dom, playBeep_dom, stopRefresh_dom]
    exact bannerInfo_renderBanner cfg _ _ _ _ _
  · simp only [setTimer]
    exact bannerInfo_renderBanner cfg _ _ _ _ _

/-- C10: the sold-out figure handed to the banner equals the number of
records with `isSoldOut` true and no purchase link, which is exactly total
minus available; a sold-out-noted record with a purchase link is not
counted. -/
theorem c10_soldout_display (cfg : Config) (env : Env) (rows : List RowInput)
    (st : MonitorState) :
    ∃ cls, bannerInfo ((runCheck cfg env (Except.ok rows) st).dom) =
        some ((parseAllSessions rows).length,
          ((parseAllSessions rows).filter
            fun s => s.isSoldOut && !s.hasBuyLink).length,
          ((parseAllSessions rows).filter fun s => s.isAvailable).length,
          cls) ∧
      (parseAllSessions rows).length -
          ((parseAllSessions rows).filter fun s => s.isAvailable).length =
        ((parseAllSessions rows).filter
          fun s => s.isSoldOut && !s.hasBuyLink).length := by
  refine ⟨if ((parseAllSessions rows).filter fun s => s.isAvailable).length == 0
      then BannerClass.soldOutCls else BannerClass.availableCls,
    ?_, soldOut_count_eq rows⟩
  rw [runCheck_bannerInfo, soldOut_count_eq rows]

/-- C4 fails on the code: with the try-body throwing at the parse step
(cycle from the initial state), the error is caught and logged but NO
re-check timer is scheduled, while the claim demands exactly one as in a
normal empty cycle. -/
theorem c4_counterexample :
    ¬ ((refreshTimers (runCheck defaultConfig ⟨false⟩ (Except.error ())
        initState)).length = 1) := by decide

/-- C4 (amended): an unexpected error in the cycle is caught at the cycle
boundary and logged, and the monitor process survives — but the cycle does
NOT fall through to the empty-cycle path: the state is left exactly as it
was apart from the log, so no re-check timer is scheduled, no banner is
rendered and no alert channel is invoked; polling silently stops. -/
theorem c4_cycle_error_caught (cfg : Config) (env : Env) (e : Unit)
    (st : MonitorState) :
    runCheck cfg env (Except.error e) st =
      { st with log := LogEntry.cycleError :: LogEntry.startScan :: st.log } :=
  rfl

/-- C9: rendering the banner is idempotent — after two successive renders
(with any arguments, from any page state) exactly one banner element and at
most one details element are present, because each invocation removes the
prior instances before inserting the new ones. -/
theorem c9_render_idempotent (cfg : Config) (t1 so1 av1 : Nat)
    (ls1 : List Session) (t2 so2 av2 : Nat) (ls2 : List Session)
    (st : MonitorState) :
    bannerCount (renderBanner cfg t2 so2 av2 ls2
        (renderBanner cfg t1 so1 av1 ls1 st)).dom = 1 ∧
    detailsCount (renderBanner cfg t2 so2 av2 ls2
        (renderBanner cfg t1 so1 av1 ls1 st)).dom ≤ 1 :=
  ⟨bannerCount_render cfg t2 so2 av2 ls2 (renderBanner cfg t1 so1 av1 ls1 st),
   detailsCount_render cfg t2 so2 av2 ls2 (renderBanner cfg t1 so1 av1 ls1 st)⟩

/-- Timers active after an alerting cycle (available count > 0): the old
timers except those cleared through the elapsed/countdown/refresh handles,
the fresh elapsed ticker, and (when enabled) the fresh tab flasher. -/
lemma mem_runCheck_avail (cfg : Config) (env : Env) (rows : List RowInput)
    (st : MonitorState) (tm : Timer)
    (hEmp : ((parseAllSessions rows).filter
      fun s => s.isAvailable).isEmpty = false) :
    tm ∈ (runCheck cfg env (Except.ok rows) st).activeTimers ↔
      ((tm ∈ st.activeTimers ∧ st.elapsedId ≠ some tm.id ∧
          st.countdownId ≠ some tm.id ∧ st.refreshTimerId ≠ some tm.id ∧
          (cfg.enableTabFlash = true → st.tabFlashId ≠ some tm.id)) ∨
        (tm = ⟨st.nextId, TimerKind.elapsed, 1000⟩ ∧
          st.countdownId ≠ some tm.id ∧ st.refreshTimerId ≠ some tm.id ∧
          (cfg.enableTabFlash = true → st.tabFlashId ≠ some tm.id)) ∨
        (cfg.enableTabFlash = true ∧
          tm = ⟨st.nextId + 1, TimerKind.tabFlash, 800⟩)) := by
  have hav0 : (((parseAllSessions rows).filter
      fun s => s.isAvailable).length == 0) = false := by
    rw [beq_eq_false_iff_ne]
    intro h0
    exact (List.isEmpty_eq_false.mp hEmp) (List.length_eq_zero.mp h0)
  simp only [runCheck]
  rw [if_pos (by rw [hEmp]; rfl)]
  simp only [mem_flashTab, playBeep_activeTimers, mem_stopRefresh,
    playBeep_tabFlashId, stopRefresh_tabFlashId, renderBanner_tabFlashId,
    stopRefresh_refreshTimerId, playBeep_nextId, stopRefresh_nextId,
    renderBanner_nextId, renderBanner_refreshTimerId, hav0,
    mem_renderBanner_timers]
  by_cases hfl : cfg.enableTabFlash <;> simp [hfl] <;> tauto

/-- C2: in a cycle whose classified-available count is positive, the
pending re-check timer (if any) is cancelled before the cycle returns, no
re-check timer is scheduled afterwards, and the alert channels are
dispatched (tab flasher started; tones started, or the audio failure
logged): the system never both alerts and reschedules. -/
theorem c2_alert_cancels_and_never_reschedules (cfg : Config) (env : Env)
    (rows : List RowInput) (st : MonitorState) (hwf : WF st)
    (hav : 0 < ((parseAllSessions rows).filter fun s => s.isAvailable).length) :
    (runCheck cfg env (Except.ok rows) st).refreshTimerId = none ∧
    (∀ i, st.refreshTimerId = some i →
      ∀ tm ∈ (runCheck cfg env (Except.ok rows) st).activeTimers,
        tm.id ≠ i) ∧
    (∀ tm ∈ (runCheck cfg env (Except.ok rows) st).activeTimers,
      refreshKind tm = true → tm ∈ st.activeTimers) ∧
    (cfg.enableTabFlash = true →
      (runCheck cfg env (Except.ok rows) st).tabFlashId.isSome = true) ∧
    (cfg.enableSound = true → env.audioFails = false →
      (runCheck cfg env (Except.ok rows) st).tones.length =
        st.tones.length + cfg.soundRepeat) ∧
    (cfg.enableSound = true → env.audioFails = true →
      LogEntry.audioWarn ∈ (runCheck cfg env (Except.ok rows) st).log) := by
  have hne : ((parseAllSessions rows).filter fun s => s.isAvailable) ≠ [] :=
    List.length_pos.mp hav
  have hEmp : ((parseAllSessions rows).filter
      fun s => s.isAvailable).isEmpty = false :=
    List.isEmpty_eq_false.mpr hne
  refine ⟨?_, ?_, ?_, ?_, ?_, ?_⟩
  · simp only [runCheck]
    rw [if_pos (by rw [hEmp]; rfl)]
    simp
  · intro i hi tm htm
    rw [mem_runCheck_avail cfg env rows st tm hEmp] at htm
    have hlt : i < st.nextId := hwf.1 i hi
    rcases htm with ⟨-, -, -, href, -⟩ | ⟨rfl, -, href, -⟩ | ⟨-, rfl⟩
    · intro h
      exact href (by rw [hi, h])
    · intro h
      exact href (by rw [hi, h])
    · show st.nextId + 1 ≠ i
      omega
  · intro tm htm hk
    rw [mem_runCheck_avail cfg env rows st tm hEmp] at htm
    rcases htm with ⟨hin, -⟩ | ⟨rfl, -⟩ | ⟨-, rfl⟩
    · exact hin
    · simp [refreshKind] at hk
    · simp [refreshKind] at hk
  · intro hfl
    simp only [runCheck]
    rw [if_pos (by rw [hEmp]; rfl)]
    rw [flashTab_tabFlashId, if_pos hfl]
    rfl
  · intro hsnd hnoerr
    simp only [runCheck]
    rw [if_pos (by rw [hEmp]; rfl)]
    rw [flashTab_tones, playBeep_tones, hsnd, hnoerr]
    simp
  · intro hsnd herr
    simp only [runCheck]
    rw [if_pos (by rw [hEmp]; rfl)]
    rw [flashTab_log]
    exact playBeep_log_warn cfg env _ hsnd herr

lemma wf_initState : WF initState := by
  refine ⟨?_, ?_, ?_, ?_, ?_⟩ <;> simp [HandleLt, initState]

/-- Witness for C2: a cycle over one sold-out-noted row carrying a purchase
link, from the initial state. -/
theorem c2_alert_cancels_and_never_reschedules_witness :
    WF initState ∧
    0 < ((parseAllSessions [⟨some "a", some "Esaurito", some (some "u")⟩]).filter
      fun s => s.isAvailable).length ∧
    (runCheck defaultConfig ⟨false⟩
      (Except.ok [⟨some "a", some "Esaurito", some (some "u")⟩])
      initState).refreshTimerId = none :=
  ⟨wf_initState, by decide,
   (c2_alert_cancels_and_never_reschedules defaultConfig ⟨false⟩
     [⟨some "a", some "Esaurito", some (some "u")⟩] initState
     wf_initState (by decide)).1⟩

/-- C5: on every transition into Alerting (an available session was found),
any timer referenced by the re-check, elapsed-ticker or countdown-ticker
handle before the cycle is no longer active after it. -/
theorem c5_alert_cancels_outstanding_timers (cfg : Config) (env : Env)
    (rows : List RowInput) (st : MonitorState) (hwf : WF st)
    (hav : 0 < ((parseAllSessions rows).filter fun s => s.isAvailable).length) :
    ∀ i, (st.refreshTimerId = some i ∨ st.elapsedId = some i ∨
        st.countdownId = some i) →
      ∀ tm ∈ (runCheck cfg env (Except.ok rows) st).activeTimers,
        tm.id ≠ i := by
  have hne : ((parseAllSessions rows).filter fun s => s.isAvailable) ≠ [] :=
    List.length_pos.mp hav
  have hEmp : ((parseAllSessions rows).filter
      fun s => s.isAvailable).isEmpty = false :=
    List.isEmpty_eq_false.mpr hne
  intro i hi tm htm
  rw [mem_runCheck_avail cfg env rows st tm hEmp] at htm
  have hlt : i < st.nextId := by
    rcases hi with h | h | h
    exacts [hwf.1 i h, hwf.2.2.1 i h, hwf.2.1 i h]
  rcases htm with ⟨-, hel, hcd, href, -⟩ | ⟨rfl, -, -, -⟩ | ⟨-, rfl⟩
  · rcases hi with h | h | h
    · intro he
      exact href (by rw [h, he])
    · intro he
      exact hel (by rw [h, he])
    · intro he
      exact hcd (by rw [h, he])
  · show st.nextId ≠ i
    omega
  · show st.nextId + 1 ≠ i
    omega

/-- Witness for C5: a waiting state with a pending re-check timer (id 0);
after the alerting cycle no active timer carries id 0. -/
theorem c5_alert_cancels_outstanding_timers_witness :
    WF pendingState ∧
    0 < ((parseAllSessions [⟨some "a", some "Esaurito", some (some "u")⟩]).filter
      fun s => s.isAvailable).length ∧
    (∀ tm ∈ (runCheck defaultConfig ⟨false⟩
        (Except.ok [⟨some "a", some "Esaurito", some (some "u")⟩])
        pendingState).activeTimers,
      tm.id ≠ 0) := by
  have hwf : WF pendingState := by
    refine ⟨?_, ?_, ?_, ?_, ?_⟩ <;> simp [HandleLt, pendingState, initState]
  exact ⟨hwf, by decide,
    c5_alert_cancels_outstanding_timers defaultConfig ⟨false⟩
      [⟨some "a", some "Esaurito", some (some "u")⟩] _ hwf (by decide)
      0 (Or.inl rfl)⟩

/-- No refresh-kind timer comes out of `renderBanner` if none went in. -/
lemma filter_refresh_renderBanner (cfg : Config) (t so av : Nat)
    (ls : List Session) (Y : MonitorState)
    (h : ∀ tm ∈ Y.activeTimers, refreshKind tm = false) :
    (renderBanner cfg t so av ls Y).activeTimers.filter refreshKind = [] := by
  rw [List.filter_eq_nil_iff]
  intro tm htm
  rw [mem_renderBanner_timers] at htm
  rcases htm with ⟨hin, -⟩ | ⟨rfl, -⟩ | ⟨-, rfl⟩
  · simp [h tm hin]
  · simp [refreshKind]
  · simp [refreshKind]

/-- C3: in a cycle whose classified-available count is zero, exactly one
re-check timer is scheduled (provided none was pending, as is the case at
every real invocation), with a delay of exactly the configured interval —
so it fires no earlier than that interval after scheduling. -/
theorem c3_empty_cycle_schedules_one_timer (cfg : Config) (env : Env)
    (rows : List RowInput) (st : MonitorState)
    (hnorf : ∀ tm ∈ st.activeTimers, refreshKind tm = false)
    (h0 : ((parseAllSessions rows).filter fun s => s.isAvailable).length = 0) :
    ∃ i, refreshTimers (runCheck cfg env (Except.ok rows) st) =
        [⟨i, TimerKind.refresh, cfg.refreshIntervalSec * 1000⟩] ∧
      (runCheck cfg env (Except.ok rows) st).refreshTimerId = some i := by
  have hnil : ((parseAllSessions rows).filter fun s => s.isAvailable) = [] :=
    List.length_eq_zero.mp h0
  have hEmpT : ((parseAllSessions rows).filter
      fun s => s.isAvailable).isEmpty = true :=
    List.isEmpty_iff.mpr hnil
  have hav0T : (((parseAllSessions rows).filter
      fun s => s.isAvailable).length == 0) = true := by
    rw [h0]
    rfl
  refine ⟨st.nextId + 2, ?_, ?_⟩
  · unfold refreshTimers
    simp only [runCheck]
    rw [if_neg (by simp [hEmpT])]
    simp only [setTimer, List.filter_append]
    rw [filter_refresh_renderBanner]
    · simp [refreshKind, renderBanner_nextId, hav0T]
    · exact hnorf
  · simp only [runCheck]
    rw [if_neg (by simp [hEmpT])]
    simp [setTimer, renderBanner_nextId, hav0T]

/-- Witness for C3: a cycle over one sold-out row with no link, from the
initial state. -/
theorem c3_empty_cycle_schedules_one_timer_witness :
    (∀ tm ∈ initState.activeTimers, refreshKind tm = false) ∧
    ((parseAllSessions [⟨some "a", some "Esaurito", none⟩]).filter
      fun s => s.isAvailable).length = 0 ∧
    ∃ i, refreshTimers (runCheck defaultConfig ⟨false⟩
        (Except.ok [⟨some "a", some "Esaurito", none⟩]) initState) =
        [⟨i, TimerKind.refresh, defaultConfig.refreshIntervalSec * 1000⟩] ∧
      (runCheck defaultConfig ⟨false⟩
        (Except.ok [⟨some "a", some "Esaurito", none⟩])
        initState).refreshTimerId = some i :=
  ⟨by simp [initState], by decide,
   c3_empty_cycle_schedules_one_timer defaultConfig ⟨false⟩
     [⟨some "a", some "Esaurito", none⟩] initState
     (by simp [initState]) (by decide)⟩

/-- C7: when tone synthesis throws during the transition into Alerting,
the failure is caught and logged (`console.warn`), no tone is started, and
the other channels still execute: the banner is rendered (exactly one,
showing the available count) and the title flasher is started. -/
theorem c7_audio_failure_isolated (cfg : Config) (env : Env)
    (rows : List RowInput) (st : MonitorState)
    (hav : 0 < ((parseAllSessions rows).filter fun s => s.isAvailable).length)
    (hsnd : cfg.enableSound = true) (herr : env.audioFails = true)
    (hfl : cfg.enableTabFlash = true) :
    LogEntry.audioWarn ∈ (runCheck cfg env (Except.ok rows) st).log ∧
    (runCheck cfg env (Except.ok rows) st).tones = st.tones ∧
    bannerCount (runCheck cfg env (Except.ok rows) st).dom = 1 ∧
    (∃ t so cls, bannerInfo (runCheck cfg env (Except.ok rows) st).dom =
      some (t, so,
        ((parseAllSessions rows).filter fun s => s.isAvailable).length, cls)) ∧
    (runCheck cfg env (Except.ok rows) st).tabFlashId.isSome = true := by
  have hne : ((parseAllSessions rows).filter fun s => s.isAvailable) ≠ [] :=
    List.length_pos.mp hav
  have hEmp : ((parseAllSessions rows).filter
      fun s => s.isAvailable).isEmpty = false :=
    List.isEmpty_eq_false.mpr hne
  refine ⟨?_, ?_, ?_, ⟨_, _, _, runCheck_bannerInfo cfg env rows st⟩, ?_⟩
  · simp only [runCheck]
    rw [if_pos (by rw [hEmp]; rfl)]
    rw [flashTab_log]
    exact playBeep_log_warn cfg env _ hsnd herr
  · simp only [runCheck]
    rw [if_pos (by rw [hEmp]; rfl)]
    rw [flashTab_tones, playBeep_tones, hsnd, herr]
    simp
  · simp only [runCheck]
    rw [if_pos (by rw [hEmp]; rfl)]
    rw [flashTab_dom, playBeep_dom, stopRefresh_dom]
    exact bannerCount_render cfg _ _ _ _ _
  · simp only [runCheck]
    rw [if_pos (by rw [hEmp]; rfl)]
    rw [flashTab_tabFlashId, if_pos hfl]
    rfl

/-- Witness for C7: the audio context throws (`audioFails = true`) while an
available session exists; the warning is logged. -/
theorem c7_audio_failure_isolated_witness :
    0 < ((parseAllSessions [⟨some "a", some "Esaurito", some (some "u")⟩]).filter
      fun s => s.isAvailable).length ∧
    defaultConfig.enableSound = true ∧
    (Env.mk true).audioFails = true ∧
    defaultConfig.enableTabFlash = true ∧
    LogEntry.audioWarn ∈ (runCheck defaultConfig ⟨true⟩
      (Except.ok [⟨some "a", some "Esaurito", some (some "u")⟩])
      initState).log :=
  ⟨by decide, rfl, rfl, rfl,
   (c7_audio_failure_isolated defaultConfig ⟨true⟩
     [⟨some "a", some "Esaurito", some (some "u")⟩] initState
     (by decide) rfl rfl rfl).1⟩

lemma renderBanner_log (cfg : Config) (t so av : Nat) (ls : List Session)
    (st : MonitorState) :
    (renderBanner cfg t so av ls st).log =
      LogEntry.bannerRendered (av == 0) :: st.log := by
  unfold renderBanner
  by_cases hav : (av == 0) = true <;> by_cases hls : ls.isEmpty = true <;>
    simp [hav, hls, setTimer]

/-- Running the bootstrap loop over a permanently empty snapshot: it makes
one attempt per remaining unit of budget and ends in the degraded render
`renderBanner 0 0 0 []`, having only extended the log. -/
lemma waitLoop_empty (cfg : Config) (env : Env)
    (snaps : Nat → List RowInput) (hsnaps : ∀ n, snaps n = []) :
    ∀ fuel attempts st, attempts + fuel = cfg.maxAttempts → 0 < fuel →
      ∃ lg, waitLoop cfg env snaps attempts fuel st =
          renderBanner cfg 0 0 0 [] { st with log := lg } ∧
        attemptCount lg = attemptCount st.log + fuel := by
  intro fuel
  induction fuel with
  | zero =>
    intro attempts st _ h
    exact absurd h (Nat.lt_irrefl 0)
  | succ f ih =>
    intro attempts st hsum _
    simp only [waitLoop, hsnaps (attempts + 1), List.isEmpty_nil,
      List.length_nil, Bool.not_true, Bool.false_eq_true, if_false]
    by_cases hlt : attempts + 1 < cfg.maxAttempts
    · rw [if_pos hlt]
      obtain ⟨lg, heq, hcount⟩ := ih (attempts + 1)
        { st with log := LogEntry.attempt (attempts + 1) 0 :: st.log }
        (by omega) (by omega)
      refine ⟨lg, heq, ?_⟩
      rw [hcount]
      simp [attemptCount, List.filter_cons, isAttemptLog]
      omega
    · rw [if_neg hlt]
      refine ⟨LogEntry.noRows :: LogEntry.attempt (attempts + 1) 0 :: st.log,
        rfl, ?_⟩
      simp [attemptCount, List.filter_cons, isAttemptLog]
      omega

/-- C8: when the snapshot never exposes rows, the bootstrap exhausts its
attempt budget and stops: a degraded 0/0 sold-out banner is rendered, no
re-check timer is scheduled, exactly `maxAttempts` attempts were made (none
follow), no tone was started and no title flasher was installed. -/
theorem c8_bootstrap_exhaustion (cfg : Config) (env : Env)
    (snaps : Nat → List RowInput) (hsnaps : ∀ n, snaps n = [])
    (hpos : 0 < cfg.maxAttempts) :
    bannerInfo (waitForDOM cfg env snaps initState).dom =
        some (0, 0, 0, BannerClass.soldOutCls) ∧
    (waitForDOM cfg env snaps initState).refreshTimerId = none ∧
    refreshTimers (waitForDOM cfg env snaps initState) = [] ∧
    attemptCount (waitForDOM cfg env snaps initState).log = cfg.maxAttempts ∧
    (waitForDOM cfg env snaps initState).tones = [] ∧
    (waitForDOM cfg env snaps initState).tabFlashId = none := by
  obtain ⟨lg, heq, hcount⟩ :=
    waitLoop_empty cfg env snaps hsnaps cfg.maxAttempts 0 initState
      (by omega) hpos
  unfold waitForDOM
  rw [heq]
  refine ⟨?_, ?_, ?_, ?_, ?_, ?_⟩
  · rw [bannerInfo_renderBanner]
    rfl
  · simp [initState]
  · unfold refreshTimers
    rw [filter_refresh_renderBanner]
    intro tm htm
    exact absurd htm (List.not_mem_nil tm)
  · rw [renderBanner_log]
    have h1 : attemptCount (LogEntry.bannerRendered ((0 : Nat) == 0) :: lg) =
        attemptCount lg := by
      simp [attemptCount, List.filter_cons, isAttemptLog]
    rw [h1, hcount]
    simp [attemptCount, initState]
  · simp [initState]
  · simp [initState]

/-- Witness for C8: the default 20-attempt budget over an always-empty
snapshot; the degraded banner is rendered. -/
theorem c8_bootstrap_exhaustion_witness :
    (∀ n, (fun _ : Nat => ([] : List RowInput)) n = []) ∧
    0 < defaultConfig.maxAttempts ∧
    bannerInfo (waitForDOM defaultConfig ⟨false⟩ (fun _ => []) initState).dom =
      some (0, 0, 0, BannerClass.soldOutCls) :=
  ⟨fun _ => rfl, by decide,
   (c8_bootstrap_exhaustion defaultConfig ⟨false⟩ (fun _ => [])
     (fun _ => rfl) (by decide)).1⟩

/-! ## The last-spots matcher agrees with the declarative pattern -/

lemma jsSpace_elim {c : Char} (h : jsSpace c = true) :
    c = ' ' ∨ c = '\t' ∨ c = '\n' ∨ c = '\r' ∨ c = '\x0b' ∨ c = '\x0c' ∨
      c = ' ' := by
  simp [jsSpace] at h
  tauto

lemma jsSpace_not_word {c : Char} (h : jsSpace c = true) :
    wordChar c = false := by
  rcases jsSpace_elim h with rfl | rfl | rfl | rfl | rfl | rfl | rfl <;> decide

lemma jsSpace_not_digit {c : Char} (h : jsSpace c = true) :
    digitChar c = false := by
  rcases jsSpace_elim h with rfl | rfl | rfl | rfl | rfl | rfl | rfl <;> decide

lemma digit_not_jsSpace {c : Char} (h : digitChar c = true) :
    jsSpace c = false := by
  cases hs : jsSpace c
  · rfl
  · rw [jsSpace_not_digit hs] at h
    exact (Bool.false_ne_true h).elim

lemma lowerP_not_jsSpace {c : Char} (h : Char.toLower c = 'p') :
    jsSpace c = false := by
  cases hs : jsSpace c
  · rfl
  · exfalso
    rcases jsSpace_elim hs with rfl | rfl | rfl | rfl | rfl | rfl | rfl <;>
      exact absurd h (by decide)

lemma stripLitCI_sound : ∀ {lit cs r : List Char},
    stripLitCI lit cs = some r → ∃ u, cs = u ++ r ∧ LowersTo lit u := by
  intro lit
  induction lit with
  | nil =>
    intro cs r h
    simp only [stripLitCI, Option.some.injEq] at h
    exact ⟨[], by simp [h], rfl⟩
  | cons l ls ih =>
    intro cs r h
    cases cs with
    | nil => simp [stripLitCI] at h
    | cons c cs' =>
      simp only [stripLitCI] at h
      by_cases hc : (c.toLower == l) = true
      · rw [if_pos hc] at h
        obtain ⟨u, hcs, hu⟩ := ih h
        refine ⟨c :: u, by simp [hcs], ?_⟩
        unfold LowersTo at hu ⊢
        rw [List.map_cons, hu, beq_iff_eq.mp hc]
      · rw [if_neg hc] at h
        cases h

lemma stripLitCI_complete_aux (u r : List Char) :
    stripLitCI (u.map Char.toLower) (u ++ r) = some r := by
  induction u with
  | nil => simp [stripLitCI]
  | cons c u' ih =>
    rw [List.map_cons, List.cons_append]
    simp only [stripLitCI, beq_self_eq_true, if_true]
    exact ih

lemma stripLitCI_complete {lit u : List Char} (r : List Char)
    (h : LowersTo lit u) : stripLitCI lit (u ++ r) = some r := by
  rw [← h]
  exact stripLitCI_complete_aux u r

lemma takeWhile_append_all {p : Char → Bool} {xs : List Char}
    (h : ∀ x ∈ xs, p x = true) (ys : List Char) :
    List.takeWhile p (xs ++ ys) = xs ++ List.takeWhile p ys := by
  induction xs with
  | nil => rfl
  | cons a l ih =>
    rw [List.cons_append, List.takeWhile_cons,
      if_pos (h a (List.mem_cons_self a l)), List.cons_append,
      ih (fun x hx => h x (List.mem_cons_of_mem a hx))]

lemma dropWhile_append_all {p : Char → Bool} {xs : List Char}
    (h : ∀ x ∈ xs, p x = true) (ys : List Char) :
    List.dropWhile p (xs ++ ys) = List.dropWhile p ys := by
  induction xs with
  | nil => rfl
  | cons a l ih =>
    rw [List.cons_append, List.dropWhile_cons,
      if_pos (h a (List.mem_cons_self a l)),
      ih (fun x hx => h x (List.mem_cons_of_mem a hx))]

lemma takeWhile_cons_neg {p : Char → Bool} {a : Char} (l : List Char)
    (h : p a = false) : List.takeWhile p (a :: l) = [] := by
  rw [List.takeWhile_cons, if_neg (by simp [h])]

lemma dropWhile_cons_neg {p : Char → Bool} {a : Char} (l : List Char)
    (h : p a = false) : List.dropWhile p (a :: l) = a :: l := by
  rw [List.dropWhile_cons, if_neg (by simp [h])]

lemma dropWhile_all_stop {p : Char → Bool} {xs ys : List Char}
    (hall : ∀ x ∈ xs, p x = true)
    (hstop : ∀ b l, ys = b :: l → p b = false) :
    List.dropWhile p (xs ++ ys) = ys := by
  rw [dropWhile_append_all hall]
  cases ys with
  | nil => rfl
  | cons b l => exact dropWhile_cons_neg l (hstop b l rfl)

lemma takeWhile_nil_stop {p : Char → Bool} {ys : List Char}
    (hstop : ∀ b l, ys = b :: l → p b = false) :
    List.takeWhile p ys = [] := by
  cases ys with
  | nil => rfl
  | cons b l => exact takeWhile_cons_neg l (hstop b l rfl)

lemma reqClass_sound {p : Char → Bool} {cs r : List Char}
    (h : reqClass p cs = some r) :
    ∃ xs, cs = xs ++ r ∧ xs ≠ [] ∧ ∀ x ∈ xs, p x = true := by
  unfold reqClass at h
  by_cases he : (cs.takeWhile p).isEmpty = true
  · rw [if_pos he] at h
    cases h
  · rw [if_neg he] at h
    rw [Option.some.injEq] at h
    refine ⟨cs.takeWhile p, ?_, ?_, fun x hx => List.mem_takeWhile_imp hx⟩
    · rw [← h, List.takeWhile_append_dropWhile]
    · exact List.isEmpty_eq_false.mp (by simpa using he)

lemma reqClass_complete {p : Char → Bool} {xs ys : List Char}
    (hall : ∀ x ∈ xs, p x = true) (hne : xs ≠ [])
    (hstop : ∀ b l, ys = b :: l → p b = false) :
    reqClass p (xs ++ ys) = some ys := by
  unfold reqClass
  rw [takeWhile_append_all hall, takeWhile_nil_stop hstop, List.append_nil,
    if_neg (by simp [List.isEmpty_eq_false.mpr hne]),
    dropWhile_all_stop hall hstop]

lemma matchAt_sound {cs : List Char} (h : matchAt cs = true) :
    ∃ u w s1 d s2 p sf : List Char,
      cs = u ++ (w ++ (s1 ++ (d ++ (s2 ++ (p ++ sf))))) ∧
      LowersTo ultimChars u ∧ (∀ c ∈ w, wordChar c = true) ∧
      s1 ≠ [] ∧ (∀ c ∈ s1, jsSpace c = true) ∧
      d ≠ [] ∧ (∀ c ∈ d, digitChar c = true) ∧
      s2 ≠ [] ∧ (∀ c ∈ s2, jsSpace c = true) ∧
      LowersTo postChars p := by
  unfold matchAt at h
  split at h
  next => simp at h
  next r1 h1 =>
    split at h
    next => simp at h
    next r3 h2 =>
      split at h
      next => simp at h
      next r4 h3 =>
        split at h
        next => simp at h
        next r5 h4 =>
          obtain ⟨sf, h5⟩ := Option.isSome_iff_exists.mp h
          obtain ⟨u, rfl, hu⟩ := stripLitCI_sound h1
          obtain ⟨s1, hr2, hs1ne, hs1⟩ := reqClass_sound h2
          obtain ⟨d, hr3, hdne, hd⟩ := reqClass_sound h3
          obtain ⟨s2, hr4, hs2ne, hs2⟩ := reqClass_sound h4
          obtain ⟨p, hr5, hp⟩ := stripLitCI_sound h5
          refine ⟨u, r1.takeWhile wordChar, s1, d, s2, p, sf, ?_, hu,
            fun c hc => List.mem_takeWhile_imp hc,
            hs1ne, hs1, hdne, hd, hs2ne, hs2, hp⟩
          conv_lhs => rw [← List.takeWhile_append_dropWhile wordChar r1]
          rw [hr2, hr3, hr4, hr5]

lemma lowersToPost_head {p : List Char} (hp : LowersTo postChars p) :
    ∃ f p', p = f :: p' ∧ Char.toLower f = 'p' := by
  cases p with
  | nil => cases hp
  | cons f p' =>
    unfold LowersTo at hp
    rw [List.map_cons] at hp
    exact ⟨f, p', rfl, (List.cons.injEq _ _ _ _ ▸ hp).1⟩

lemma matchAt_complete {u w s1 d s2 p sf : List Char}
    (hu : LowersTo ultimChars u) (hw : ∀ c ∈ w, wordChar c = true)
    (hs1ne : s1 ≠ []) (hs1 : ∀ c ∈ s1, jsSpace c = true)
    (hdne : d ≠ []) (hd : ∀ c ∈ d, digitChar c = true)
    (hs2ne : s2 ≠ []) (hs2 : ∀ c ∈ s2, jsSpace c = true)
    (hp : LowersTo postChars p) :
    matchAt (u ++ (w ++ (s1 ++ (d ++ (s2 ++ (p ++ sf)))))) = true := by
  have hstop1 : ∀ b l, s1 ++ (d ++ (s2 ++ (p ++ sf))) = b :: l →
      wordChar b = false := by
    intro b l hb
    obtain ⟨a, s1', rfl⟩ := List.exists_cons_of_ne_nil hs1ne
    rw [List.cons_append] at hb
    injection hb with hb1 _
    exact hb1 ▸ jsSpace_not_word (hs1 a (List.mem_cons_self a s1'))
  have hstop2 : ∀ b l, d ++ (s2 ++ (p ++ sf)) = b :: l →
      jsSpace b = false := by
    intro b l hb
    obtain ⟨e, d', rfl⟩ := List.exists_cons_of_ne_nil hdne
    rw [List.cons_append] at hb
    injection hb with hb1 _
    exact hb1 ▸ digit_not_jsSpace (hd e (List.mem_cons_self e d'))
  have hstop3 : ∀ b l, s2 ++ (p ++ sf) = b :: l → digitChar b = false := by
    intro b l hb
    obtain ⟨e, s2', rfl⟩ := List.exists_cons_of_ne_nil hs2ne
    rw [List.cons_append] at hb
    injection hb with hb1 _
    exact hb1 ▸ jsSpace_not_digit (hs2 e (List.mem_cons_self e s2'))
  have hstop4 : ∀ b l, p ++ sf = b :: l → jsSpace b = false := by
    intro b l hb
    obtain ⟨f, p', rfl, hf⟩ := lowersToPost_head hp
    rw [List.cons_append] at hb
    injection hb with hb1 _
    exact hb1 ▸ lowerP_not_jsSpace hf
  simp only [matchAt, stripLitCI_complete _ hu,
    dropWhile_all_stop hw hstop1,
    reqClass_complete hs1 hs1ne hstop2,
    reqClass_complete hd hdne hstop3,
    reqClass_complete hs2 hs2ne hstop4,
    stripLitCI_complete sf hp, Option.isSome_some]

lemma lastSpotsSearch_iff (cs : List Char) :
    lastSpotsSearch cs = true ↔
      ∃ su rest, cs = su ++ rest ∧ matchAt rest = true := by
  induction cs with
  | nil =>
    constructor
    · intro h
      exact ⟨[], [], rfl, h⟩
    · rintro ⟨su, rest, heq, hm⟩
      obtain ⟨rfl, rfl⟩ := List.append_eq_nil.mp heq.symm
      exact hm
  | cons c cs ih =>
    simp only [lastSpotsSearch, Bool.or_eq_true]
    constructor
    · rintro (h | h)
      · exact ⟨[], c :: cs, rfl, h⟩
      · obtain ⟨su, rest, heq, hm⟩ := ih.mp h
        exact ⟨c :: su, rest, by rw [List.cons_append, heq], hm⟩
    · rintro ⟨su, rest, heq, hm⟩
      cases su with
      | nil =>
        left
        rw [List.nil_append] at heq
        rw [heq]
        exact hm
      | cons c' su' =>
        right
        rw [List.cons_append] at heq
        injection heq with h1 h2
        exact ih.mpr ⟨su', rest, h2, hm⟩

/-- The embedded `RegExp.test` agrees with the declarative pattern. -/
lemma lastSpotsTest_iff_spec (s : String) :
    lastSpotsTest s = true ↔ LastSpotsSpec s.toList := by
  unfold lastSpotsTest LastSpotsSpec
  rw [lastSpotsSearch_iff]
  constructor
  · rintro ⟨su, rest, heq, hm⟩
    obtain ⟨u, w, s1, d, s2, p, sf, rfl, hu, hw, hs1ne, hs1, hdne, hd,
      hs2ne, hs2, hp⟩ := matchAt_sound hm
    exact ⟨su, u, w, s1, d, s2, p, sf, heq, hu, hw, hs1ne, hs1, hdne, hd,
      hs2ne, hs2, hp⟩
  · rintro ⟨su, u, w, s1, d, s2, p, sf, heq, hu, hw, hs1ne, hs1, hdne, hd,
      hs2ne, hs2, hp⟩
    exact ⟨su, _, heq,
      matchAt_complete hu hw hs1ne hs1 hdne hd hs2ne hs2 hp⟩

/-- C6: for every session record, `hasLastSpots` is true iff its note
matches the last-N-spots pattern — the word stem `ultim` plus word
characters, whitespace, one-or-more digits, whitespace, then `post` — in
any letter case and with arbitrary surrounding text (and the test is a
total function: no note can make it fail). -/
theorem c6_lastSpots_pattern (rows : List RowInput) (s : Session)
    (hs : s ∈ parseAllSessions rows) :
    s.hasLastSpots = true ↔ LastSpotsSpec s.note.toList := by
  obtain ⟨row, -, rfl⟩ := List.mem_map.mp hs
  have hfield : (parseRow row).hasLastSpots =
      lastSpotsTest (parseRow row).note := rfl
  rw [hfield]
  exact lastSpotsTest_iff_spec (parseRow row).note

/-- Witness for C6: the record parsed from a row noting "ultimi 2 posti";
its `hasLastSpots` bit is equivalent to the declarative pattern there. -/
theorem c6_lastSpots_pattern_witness :
    (parseRow ⟨some "d", some "ultimi 2 posti", none⟩) ∈
      parseAllSessions [⟨some "d", some "ultimi 2 posti", none⟩] ∧
    ((parseRow ⟨some "d", some "ultimi 2 posti", none⟩).hasLastSpots = true ↔
      LastSpotsSpec
        (parseRow ⟨some "d", some "ultimi 2 posti", none⟩).note.toList) :=
  ⟨by decide,
   c6_lastSpots_pattern [⟨some "d", some "ultimi 2 posti", none⟩]
     (parseRow ⟨some "d", some "ultimi 2 posti", none⟩) (by decide)⟩

end EasMonitor
